import Mathlib

/-!
Shallow embedding of `usdtbot.py`: a chat bot that quotes crypto→KZT rates
through a primary CoinGecko query with a USD-based fallback chain, runs a
one-step amount-conversion dialog, and dispatches inbound messages through
python-telegram-bot handlers.

Modelling conventions:
* Python exceptions are an explicit `Except PyErr` result; an `.error e`
  escaping a function models an uncaught exception crossing its boundary.
* JSON bodies are the inductive `JVal`; `float(...)`, `x in d` and `d[k]`
  are modelled by `pyFloat`, `pyContains`, `pySubscript` with Python's
  success/raise behaviour.
* The network is an `Env` mapping each URL to a canned fetch outcome; the
  list of issued HTTP calls (URL and timeout argument) and the `logger`
  error lines are returned alongside the result, so call counts, timeouts
  and logged failure reasons are provable.
-/

/-- The Python exception classes the script can raise or catch. -/
inductive PyErr
  | requestException   -- requests.exceptions.RequestException (incl. timeouts)
  | httpError          -- requests.exceptions.HTTPError from raise_for_status
  | keyError (msg : String)
  | valueError         -- float() parse failure / JSON decode failure
  | typeError          -- e.g. float(None); caught by no except clause here
  deriving DecidableEq

/-- Whether `except (requests.exceptions.RequestException, KeyError, ValueError)`
catches the exception. `HTTPError` is a `RequestException` subclass and JSON
decode errors are `ValueError` subclasses, so both are caught; `TypeError`
is not listed and escapes. -/
def PyErr.caught : PyErr → Bool
  | .typeError => false
  | _ => true

/-- A JSON value, as produced by `response.json()`. -/
inductive JVal
  | null
  | bool (b : Bool)
  | num (q : ℚ)
  | str (s : String)
  | arr (elems : List JVal)
  | obj (fields : List (String × JVal))

/-- Whether `small` occurs as a prefix of `big` (character lists). -/
def leadsWith : List Char → List Char → Bool
  | [], _ => true
  | _ :: _, [] => false
  | a :: as, b :: bs => a == b && leadsWith as bs

/-- Whether `needle` occurs as a contiguous sublist of `hay`. -/
def isSubList (needle : List Char) : List Char → Bool
  | [] => needle.isEmpty
  | c :: rest => leadsWith needle (c :: rest) || isSubList needle rest

/-- Python `k in data` for a string `k`: key membership for dicts, element
equality for lists, substring test for strings, `TypeError` otherwise. -/
def pyContains (data : JVal) (k : String) : Except PyErr Bool :=
  match data with
  | .obj fs => .ok (fs.any (fun p => p.1 == k))
  | .arr xs => .ok (xs.any (fun x => match x with | .str s => s == k | _ => false))
  | .str s => .ok (isSubList k.data s.data)
  | _ => .error .typeError

/-- Python `data[k]` for a string `k`: dict lookup (raising `KeyError` when
the key is absent), `TypeError` on every non-dict value. -/
def pySubscript (data : JVal) (k : String) : Except PyErr JVal :=
  match data with
  | .obj fs =>
    match fs.find? (fun p => p.1 == k) with
    | some p => .ok p.2
    | none => .error (.keyError k)
  | _ => .error .typeError

/-- Characters stripped by Python `float` around a numeric literal. -/
def isPySpace (c : Char) : Bool :=
  c == ' ' || c == '\t' || c == '\n' || c == '\r'

/-- Strip surrounding whitespace from a character list. -/
def stripChars (cs : List Char) : List Char :=
  ((cs.dropWhile isPySpace).reverse.dropWhile isPySpace).reverse

/-- Numeric value of a digit list, most significant first. -/
def digitsVal (cs : List Char) : ℕ :=
  cs.foldl (fun a c => a * 10 + (c.toNat - 48)) 0

/-- `10 ^ n` over the rationals, by plain recursion. -/
def tenPow : ℕ → ℚ
  | 0 => 1
  | n + 1 => 10 * tenPow n

/-- Modelled from Python: the unsigned part accepted by `float`, i.e. a
decimal literal `digits`, `digits.digits`, `digits.` or `.digits`
(exponent, underscore and inf/nan forms are outside the behaviour the
script exercises and are not modelled). -/
def parseUnsigned (cs : List Char) : Option ℚ :=
  match cs.span (fun c => c != '.') with
  | (ip, []) =>
    if !ip.isEmpty && ip.all Char.isDigit then some (digitsVal ip) else none
  | (ip, _ :: fp) =>
    if (!ip.isEmpty || !fp.isEmpty) && ip.all Char.isDigit && fp.all Char.isDigit then
      some ((digitsVal ip : ℚ) + (digitsVal fp : ℚ) / tenPow fp.length)
    else none

/-- Modelled from Python: `float(s)` on a string — strip whitespace, optional
sign, decimal literal; `none` models the `ValueError` raise. -/
def pyFloatOfString (s : String) : Option ℚ :=
  match stripChars s.data with
  | '-' :: rest => (parseUnsigned rest).map (fun q => -q)
  | '+' :: rest => parseUnsigned rest
  | cs => parseUnsigned cs

/-- Python `float(v)` on a JSON value: numbers pass through, booleans become
0/1, strings are parsed (`ValueError` on failure), everything else —
including `None` — raises `TypeError`. -/
def pyFloat : JVal → Except PyErr ℚ
  | .num q => .ok q
  | .bool b => .ok (if b then 1 else 0)
  | .str s =>
    match pyFloatOfString s with
    | some q => .ok q
    | none => .error .valueError
  | _ => .error .typeError

/-- Outcome of one `requests.get`: a raised transport error, or a response
with an HTTP status and a body (`none` = body that is not valid JSON). -/
inductive FetchResult
  | exn
  | resp (status : ℕ) (body : Option JVal)

/-- The external world: what each URL answers during one resolution. -/
abbrev Env := String → FetchResult

/-- `requests.get(url)` followed by `raise_for_status()` and `.json()`:
transport errors raise `RequestException`, a 4xx/5xx status raises
`HTTPError`, a non-JSON body raises a `ValueError` subclass. -/
def httpGetJson (env : Env) (url : String) : Except PyErr JVal :=
  match env url with
  | .exn => .error .requestException
  | .resp status body =>
    if 400 ≤ status then .error .httpError
    else
      match body with
      | none => .error .valueError
      | some j => .ok j

/-- The primary CoinGecko crypto→KZT endpoint (line 40 of the source). -/
def primaryUrl (id : String) : String :=
  "https://api.coingecko.com/api/v3/simple/price?ids=" ++ id ++ "&vs_currencies=kzt"

/-- The fallback crypto→USD endpoint (line 55 of the source). -/
def usdUrl (id : String) : String :=
  "https://api.coingecko.com/api/v3/simple/price?ids=" ++ id ++ "&vs_currencies=usd"

/-- The fallback USD→KZT endpoint (line 61 of the source). -/
def kztUrl : String := "https://api.exchangerate-api.com/v4/latest/USD"

/-- One issued HTTP call: the URL and the `timeout=` argument passed. -/
structure Call where
  url : String
  timeout : ℕ
  deriving DecidableEq

/-- The primary call: `requests.get(url, timeout=10)` (line 42). -/
def primaryCall (id : String) : Call := ⟨primaryUrl id, 10⟩

/-- The first fallback leg: `requests.get(url_usd, timeout=10)` (line 56). -/
def usdCall (id : String) : Call := ⟨usdUrl id, 10⟩

/-- The second fallback leg: `requests.get(url_kzt, timeout=5)` (line 62). -/
def kztCall : Call := ⟨kztUrl, 5⟩

/-- `logger.error` lines emitted by `get_crypto_rate`. -/
inductive LogEntry
  | primaryError (sym : String) (e : PyErr)    -- "CoinGecko API error for ..."
  | fallbackError (sym : String) (e : PyErr)   -- "Fallback API error for ..."
  deriving DecidableEq

/-- The symbol→CoinGecko-id mapping (lines 29–34). -/
def crypto_ids : List (String × String) :=
  [("USDT", "tether"), ("BTC", "bitcoin"), ("ETH", "ethereum"), ("TON", "the-open-network")]

/-- The body of the primary try block (lines 40–49): fetch the KZT quote,
check `crypto_id in data and 'kzt' in data[crypto_id]`, convert with
`float`, otherwise raise `KeyError`. -/
def primaryParse (env : Env) (sym id : String) : Except PyErr ℚ := do
  let data ← httpGetJson env (primaryUrl id)
  let b1 ← pyContains data id
  if b1 then
    let sub ← pySubscript data id
    let b2 ← pyContains sub "kzt"
    if b2 then
      let v ← pySubscript sub "kzt"
      pyFloat v
    else throw (.keyError ("Rate not found for " ++ sym))
  else throw (.keyError ("Rate not found for " ++ sym))

/-- First fallback leg (lines 55–60): fetch the USD quote and parse it. -/
def usdLeg (env : Env) (sym id : String) : Except PyErr ℚ := do
  let data ← httpGetJson env (usdUrl id)
  let b1 ← pyContains data id
  if b1 then
    let sub ← pySubscript data id
    let b2 ← pyContains sub "usd"
    if b2 then
      let v ← pySubscript sub "usd"
      pyFloat v
    else throw (.keyError ("USD rate not found for " ++ sym))
  else throw (.keyError ("USD rate not found for " ++ sym))

/-- Second fallback leg (lines 61–69): fetch USD→KZT and parse it. -/
def kztLeg (env : Env) : Except PyErr ℚ := do
  let data ← httpGetJson env kztUrl
  let b1 ← pyContains data "rates"
  if b1 then
    let sub ← pySubscript data "rates"
    let b2 ← pyContains sub "KZT"
    if b2 then
      let v ← pySubscript sub "KZT"
      pyFloat v
    else throw (.keyError "KZT rate not found in fallback API")
  else throw (.keyError "KZT rate not found in fallback API")

/-- The fallback block (lines 54–71): the USD leg runs first; the KZT call
is only issued if the USD leg succeeded; the product is returned. The
second component lists the HTTP calls issued. -/
def fallbackRun (env : Env) (sym id : String) : Except PyErr ℚ × List Call :=
  match usdLeg env sym id with
  | .error e => (.error e, [usdCall id])
  | .ok u =>
    match kztLeg env with
    | .error e => (.error e, [usdCall id, kztCall])
    | .ok k => (.ok (u * k), [usdCall id, kztCall])

/-- Result of one `get_crypto_rate` run: the returned value (`.ok none` is
Python `None`, `.error e` an uncaught exception), the HTTP calls issued,
and the `logger.error` lines emitted. -/
structure RunResult where
  result : Except PyErr (Option ℚ)
  calls : List Call
  logs : List LogEntry

/-- `get_crypto_rate` for a supported symbol (lines 40–74): primary attempt;
on a caught exception, log it and run the fallback; on a caught fallback
exception, log it and return `None`; uncaught exceptions escape. -/
def get_crypto_rate_core (sym id : String) (env : Env) : RunResult :=
  match primaryParse env sym id with
  | .ok r => ⟨.ok (some r), [primaryCall id], []⟩
  | .error e =>
    if e.caught then
      match fallbackRun env sym id with
      | (.ok r, cs2) => ⟨.ok (some r), primaryCall id :: cs2, [.primaryError sym e]⟩
      | (.error e2, cs2) =>
        if e2.caught then
          ⟨.ok none, primaryCall id :: cs2, [.primaryError sym e, .fallbackError sym e2]⟩
        else ⟨.error e2, primaryCall id :: cs2, [.primaryError sym e]⟩
    else ⟨.error e, [primaryCall id], []⟩

/-- `get_crypto_rate(crypto_symbol)` (lines 25–74): unsupported symbols
return `None` before any network call; otherwise the primary/fallback
chain runs. -/
def get_crypto_rate (sym : String) (env : Env) : RunResult :=
  match crypto_ids.lookup sym with
  | none => ⟨.ok none, [], []⟩
  | some id => get_crypto_rate_core sym id env

/-- `get_usdt_kzt_rate()` (lines 76–78). -/
def get_usdt_kzt_rate (env : Env) : RunResult := get_crypto_rate "USDT" env

/-- The loop body of `get_all_rates` (lines 82–86): `if rate:` keeps a rate
only when it is neither `None` nor `0.0`; an uncaught exception aborts. -/
def ratesLoop (env : Env) : List String → List (String × ℚ) → Except PyErr (List (String × ℚ))
  | [], acc => .ok acc
  | c :: rest, acc =>
    match (get_crypto_rate c env).result with
    | .error e => .error e
    | .ok none => ratesLoop env rest acc
    | .ok (some r) => ratesLoop env rest (if r = 0 then acc else acc ++ [(c, r)])

/-- `get_all_rates()` (lines 80–87): resolve all four symbols in order. -/
def get_all_rates (env : Env) : Except PyErr (List (String × ℚ)) :=
  ratesLoop env ["USDT", "BTC", "ETH", "TON"] []

/-- The per-user conversation store: which users currently hold an active
`CONVERT_AMOUNT` conversation (python-telegram-bot keeps one conversation
state per user key; `CONVERT_AMOUNT` is the only non-terminal state). -/
abbrev ConvStore := String → Bool

/-- No active conversations. -/
def emptyStore : ConvStore := fun _ => false

/-- Entering the conversation: `convert_start` returns `CONVERT_AMOUNT`, so
the user's conversation state is set (lines 118–124). -/
def beginConv (u : String) (s : ConvStore) : ConvStore :=
  fun v => if v = u then true else s v

/-- Leaving the conversation: a handler returned `ConversationHandler.END`,
so the user's conversation key is dropped. -/
def endConv (u : String) (s : ConvStore) : ConvStore :=
  fun v => if v = u then false else s v

/-- The only conversation step of the flow. -/
inductive ConvStep
  | awaitingAmount
  deriving DecidableEq

/-- Read-only lookup of a user's conversation step. -/
def currentStep (u : String) (s : ConvStore) : Option ConvStep :=
  if s u then some .awaitingAmount else none

/-- The user-visible outcome of one `convert_amount` turn. -/
inductive ConvReply
  | cancelled
  | completed (amount rate converted : ℚ)
  | rateFailure
  | invalidInput
  deriving DecidableEq

/-- Whether the handler returned `CONVERT_AMOUNT` (stay) or
`ConversationHandler.END`. -/
inductive ConvNext
  | stayAwaiting
  | ended
  deriving DecidableEq

/-- `convert_amount` (lines 126–157): cancellation keyword first; then
`float(user_input)` with a positivity check, re-prompting on `ValueError`;
then the USDT rate, with `if rate:` treating `None` and `0.0` as failure;
every path through the inner try returns `END`. An uncaught exception from
`get_crypto_rate` (only `TypeError` is possible) escapes the
`except ValueError` clause. -/
def convert_amount (input : String) (env : Env) : Except PyErr (ConvReply × ConvNext) :=
  if input = "Отмена" then .ok (.cancelled, .ended)
  else
    match pyFloatOfString input with
    | none => .ok (.invalidInput, .stayAwaiting)
    | some amount =>
      if amount ≤ 0 then .ok (.invalidInput, .stayAwaiting)
      else
        match (get_crypto_rate "USDT" env).result with
        | .error .valueError => .ok (.invalidInput, .stayAwaiting)
        | .error e => .error e
        | .ok none => .ok (.rateFailure, .ended)
        | .ok (some r) =>
          if r = 0 then .ok (.rateFailure, .ended)
          else .ok (.completed amount r (amount * r), .ended)

/-- Advancing a user's conversation: run `convert_amount` and apply the
returned state to the store (`END` removes the session, `CONVERT_AMOUNT`
keeps it; an uncaught exception leaves the store untouched and escapes). -/
def advanceConv (u input : String) (env : Env) (s : ConvStore) :
    Except PyErr (ConvReply × ConvStore) :=
  match convert_amount input env with
  | .error e => .error e
  | .ok (rep, .ended) => .ok (rep, endConv u s)
  | .ok (rep, .stayAwaiting) => .ok (rep, s)

/-- A reply produced by `handle_message`. -/
inductive BotReply
  | rateQuote (sym : String) (r : ℚ)
  | rateUnavailable (sym : String)
  | ratesList (rs : List (String × ℚ))
  | ratesUnavailable
  | menuPrompt
  deriving DecidableEq

/-- What `handle_message` did with a message: sent a reply, returned bare
(the "Конвертировать USDT" branch, line 205), or swallowed an exception in
its `except Exception` clause (lines 214–215) — the last two send nothing. -/
inductive HMOutcome
  | reply (r : BotReply)
  | deferred
  | suppressed (e : PyErr)
  deriving DecidableEq

/-- One single-asset branch of `handle_message` (e.g. lines 173–176):
`response = quote if rate else unavailable`, so `None` and `0.0` both
render the failure message. -/
def singleRateBranch (sym : String) (env : Env) : Except PyErr BotReply :=
  match (get_crypto_rate sym env).result with
  | .error e => .error e
  | .ok none => .ok (.rateUnavailable sym)
  | .ok (some r) =>
    if r = 0 then .ok (.rateUnavailable sym) else .ok (.rateQuote sym r)

/-- The body of `handle_message` (lines 170–212) before its blanket
`except Exception`. -/
def handle_message_body (text : String) (env : Env) : Except PyErr HMOutcome :=
  if text = "USDT/KZT" then (singleRateBranch "USDT" env).map .reply
  else if text = "BTC/KZT" then (singleRateBranch "BTC" env).map .reply
  else if text = "ETH/KZT" then (singleRateBranch "ETH" env).map .reply
  else if text = "TON/KZT" then (singleRateBranch "TON" env).map .reply
  else if text = "Все курсы" then
    match get_all_rates env with
    | .error e => .error e
    | .ok rs => .ok (.reply (if rs = [] then .ratesUnavailable else .ratesList rs))
  else if text = "Конвертировать USDT" then .ok .deferred
  else .ok (.reply .menuPrompt)

/-- `handle_message` (lines 167–215): the whole body runs inside
`try: ... except Exception`, so no exception escapes and a caught one
produces no reply. -/
def handle_message (text : String) (env : Env) : HMOutcome :=
  match handle_message_body text env with
  | .ok o => o
  | .error e => .suppressed e

/-- A normalized inbound chat event. -/
inductive InboundEvent
  | command (name : String) (user : String)
  | textMsg (user : String) (content : String)

/-- The three handlers added to the application in `main` (lines 239–241). -/
inductive HandlerKind
  | startCmd
  | genericText
  | conversation
  deriving DecidableEq

/-- Registration order in `main()`: `CommandHandler("start", ...)` first,
then `MessageHandler(filters.TEXT & ~filters.COMMAND, handle_message)`,
then the `ConversationHandler` — all in the same (default) handler group. -/
def registeredHandlers : List HandlerKind := [.startCmd, .genericText, .conversation]

/-- Whether a handler's `check_update` accepts the event: the start handler
accepts only the `start` command; the generic text handler accepts every
non-command text; the `ConversationHandler` accepts a text from a user with
an active conversation (its `CONVERT_AMOUNT` state handler) or the
entry-point regex `^(Конвертировать USDT)$`. -/
def matchesHandler : HandlerKind → InboundEvent → ConvStore → Bool
  | .startCmd, .command n _, _ => n == "start"
  | .startCmd, .textMsg _ _, _ => false
  | .genericText, .command _ _, _ => false
  | .genericText, .textMsg _ _, _ => true
  | .conversation, .command _ _, _ => false
  | .conversation, .textMsg u t, s => s u || t == "Конвертировать USDT"

/-- Models python-telegram-bot dispatch inside one handler group: the first
registered handler whose check accepts the update handles it; the rest of
the group is skipped. -/
def chooseHandler (ev : InboundEvent) (s : ConvStore) : Option HandlerKind :=
  registeredHandlers.find? (fun h => matchesHandler h ev s)

/-- What dispatching one event produced for the user. -/
inductive DispatchResult
  | replySent (r : BotReply)
  | conversationReply (r : ConvReply)
  | amountPrompt
  | noReply
  deriving DecidableEq

/-- Dispatch of a non-command text message: pick the handler by registration
order, then run it. The generic handler never touches the conversation
store; the conversation handler would advance an active session or begin
one at its entry point; an exception from a handler goes to the error
handler and no reply is sent. -/
def dispatchText (u t : String) (env : Env) (s : ConvStore) : DispatchResult × ConvStore :=
  match chooseHandler (.textMsg u t) s with
  | some .genericText =>
    (match handle_message t env with
     | .reply r => .replySent r
     | .deferred => .noReply
     | .suppressed _ => .noReply, s)
  | some .conversation =>
    if s u then
      match advanceConv u t env s with
      | .ok (rep, s2) => (.conversationReply rep, s2)
      | .error _ => (.noReply, s)
    else (.amountPrompt, beginConv u s)
  | _ => (.noReply, s)

/-- An environment where every request raises a transport error. -/
def envAllDown : Env := fun _ => .exn

/-- A body of shape {id: {field: q}}. -/
def jsonRate (id field : String) (q : ℚ) : JVal :=
  .obj [(id, .obj [(field, .num q)])]

/-- Primary answers the USDT quote with 450 KZT; everything else is down. -/
def envPrimaryOk : Env := fun url =>
  if url = primaryUrl "tether" then .resp 200 (some (jsonRate "tether" "kzt" 450))
  else .exn

/-- Primary answers `{}` for USDT; both fallback legs answer well-formed
bodies (1.0 USD, 449.0 KZT per USD). -/
def envFallbackOk : Env := fun url =>
  if url = primaryUrl "tether" then .resp 200 (some (.obj []))
  else if url = usdUrl "tether" then .resp 200 (some (jsonRate "tether" "usd" 1))
  else if url = kztUrl then .resp 200 (some (.obj [("rates", .obj [("KZT", .num 449)])]))
  else .exn

/-- Primary answers USDT with a present but null `kzt` field. -/
def envNullKzt : Env := fun url =>
  if url = primaryUrl "tether" then
    .resp 200 (some (.obj [("tether", .obj [("kzt", .null)])]))
  else .exn

/-- Primary answers 500 for USDT; both fallback legs answer well-formed
bodies, so all three calls are issued. -/
def envHalfDown : Env := fun url =>
  if url = primaryUrl "tether" then .resp 500 none
  else if url = usdUrl "tether" then .resp 200 (some (jsonRate "tether" "usd" 1))
  else if url = kztUrl then .resp 200 (some (.obj [("rates", .obj [("KZT", .num 449)])]))
  else .exn

/-- USDT, ETH and TON resolve from the primary; BTC's provider (and every
fallback leg) is down. -/
def envBtcDown : Env := fun url =>
  if url = primaryUrl "tether" then .resp 200 (some (jsonRate "tether" "kzt" 450))
  else if url = primaryUrl "ethereum" then .resp 200 (some (jsonRate "ethereum" "kzt" 500000))
  else if url = primaryUrl "the-open-network" then .resp 200 (some (jsonRate "the-open-network" "kzt" 900))
  else .exn

/-- USDT resolves to exactly 0.0, ETH to 5; everything else is down. -/
def envZeroUsdt : Env := fun url =>
  if url = primaryUrl "tether" then .resp 200 (some (jsonRate "tether" "kzt" 0))
  else if url = primaryUrl "ethereum" then .resp 200 (some (jsonRate "ethereum" "kzt" 5))
  else .exn

/-! ### Helper lemmas -/

/-- The fallback block issues either just the USD call, or the USD call
followed by the KZT call. -/
theorem fallbackRun_calls (env : Env) (sym id : String) :
    (fallbackRun env sym id).2 = [usdCall id] ∨
    (fallbackRun env sym id).2 = [usdCall id, kztCall] := by
  unfold fallbackRun
  cases usdLeg env sym id with
  | error e => exact Or.inl rfl
  | ok u =>
    cases kztLeg env with
    | error e => exact Or.inr rfl
    | ok k => exact Or.inr rfl

/-- For a supported symbol, the issued calls are a prefix of
primary, USD leg, KZT leg. -/
theorem get_crypto_rate_core_calls_shape (sym id : String) (env : Env) :
    (get_crypto_rate_core sym id env).calls = [primaryCall id] ∨
    (get_crypto_rate_core sym id env).calls = [primaryCall id, usdCall id] ∨
    (get_crypto_rate_core sym id env).calls = [primaryCall id, usdCall id, kztCall] := by
  unfold get_crypto_rate_core
  cases hp : primaryParse env sym id with
  | ok r => exact Or.inl rfl
  | error e =>
    rcases hf : fallbackRun env sym id with ⟨res, cs⟩
    have hcs := fallbackRun_calls env sym id
    rw [hf] at hcs
    dsimp only at hcs
    by_cases hc : e.caught = true
    · cases res with
      | ok v => rcases hcs with h | h <;> simp [hc, hf, h]
      | error e2 =>
        by_cases hc2 : e2.caught = true <;> rcases hcs with h | h <;> simp [hc, hc2, hf, h]
    · simp [hc]

/-- Every entry accumulated by the `get_all_rates` loop has a nonzero rate,
provided the accumulator starts that way. -/
theorem ratesLoop_values_nonzero (env : Env) :
    ∀ (syms : List String) (acc rs : List (String × ℚ)),
      (∀ p ∈ acc, p.2 ≠ 0) → ratesLoop env syms acc = .ok rs → ∀ p ∈ rs, p.2 ≠ 0 := by
  intro syms
  induction syms with
  | nil =>
    intro acc rs hacc h
    simp only [ratesLoop, Except.ok.injEq] at h
    subst h
    exact hacc
  | cons c rest ih =>
    intro acc rs hacc h
    simp only [ratesLoop] at h
    split at h
    · exact absurd h (by simp)
    · exact ih acc rs hacc h
    · rename_i v heq
      by_cases hv : v = 0
      · rw [if_pos hv] at h
        exact ih acc rs hacc h
      · rw [if_neg hv] at h
        refine ih (acc ++ [(c, v)]) rs ?_ h
        intro p hp
        rcases List.mem_append.mp hp with hp | hp
        · exact hacc p hp
        · simp only [List.mem_singleton] at hp
          rw [hp]
          exact hv

/-! ### Claim theorems -/

/-- C1: refuted on the code — the dispatcher does NOT give the conversation
precedence: `handle_message` is registered before the ConversationHandler in
the same handler group and its filter matches every non-command text, so it
always wins. The text "Конвертировать USDT" from a user with no session is
picked up by the generic handler, whose bare-return branch sends no reply
and begins no session, even though the ConversationHandler's entry point
would have matched; with an active session the generic handler still wins,
so free text is never routed to the conversation step. -/
theorem c1_dispatch_swallows_convert_keyword :
    chooseHandler (.textMsg "u1" "Конвертировать USDT") emptyStore = some .genericText ∧
    matchesHandler .conversation (.textMsg "u1" "Конвертировать USDT") emptyStore = true ∧
    dispatchText "u1" "Конвертировать USDT" envAllDown emptyStore = (.noReply, emptyStore) ∧
    currentStep "u1" (dispatchText "u1" "Конвертировать USDT" envAllDown emptyStore).2 = none ∧
    chooseHandler (.textMsg "u1" "100") (beginConv "u1" emptyStore) = some .genericText ∧
    matchesHandler .conversation (.textMsg "u1" "100") (beginConv "u1" emptyStore) = true :=
  ⟨rfl, rfl, rfl, rfl, rfl, rfl⟩

/-- C2: `get_crypto_rate` tries the primary provider first: whenever the
primary attempt parses a rate, that rate is returned and the only HTTP call
issued is the primary one — no fallback leg is invoked; whenever the primary
attempt raises a caught exception and both fallback legs parse, the product
`usd * kzt` is returned; concretely, primary `{}` with legs
`{"tether":{"usd":1.0}}` and `{"rates":{"KZT":449.0}}` yields 449.0. -/
theorem c2_primary_first_then_fallback_product :
    (∀ (sym id : String) (env : Env) (r : ℚ),
      crypto_ids.lookup sym = some id →
      primaryParse env sym id = .ok r →
      (get_crypto_rate sym env).result = .ok (some r) ∧
      (get_crypto_rate sym env).calls = [primaryCall id]) ∧
    (∀ (sym id : String) (env : Env) (e : PyErr) (u k : ℚ),
      crypto_ids.lookup sym = some id →
      primaryParse env sym id = .error e → PyErr.caught e = true →
      usdLeg env sym id = .ok u → kztLeg env = .ok k →
      (get_crypto_rate sym env).result = .ok (some (u * k))) ∧
    (get_crypto_rate "USDT" envFallbackOk).result = .ok (some 449) := by
  refine ⟨?_, ?_, ?_⟩
  · intro sym id env r hid hp
    constructor <;> simp [get_crypto_rate, hid, get_crypto_rate_core, hp]
  · intro sym id env e u k hid hp hc hu hk
    simp [get_crypto_rate, hid, get_crypto_rate_core, hp, hc, fallbackRun, hu, hk]
  · have h : (get_crypto_rate "USDT" envFallbackOk).result = .ok (some (1 * 449)) := rfl
    rw [h]
    norm_num

/-- Witness for C2 at concrete inputs: a well-formed primary body with rate
450 is returned from the primary call alone, and the fallback scenario of
the claim yields `1 * 449`. -/
theorem c2_primary_first_then_fallback_product_witness :
    ((get_crypto_rate "USDT" envPrimaryOk).result = .ok (some 450) ∧
      (get_crypto_rate "USDT" envPrimaryOk).calls = [primaryCall "tether"]) ∧
    (get_crypto_rate "USDT" envFallbackOk).result = .ok (some (1 * 449)) :=
  ⟨c2_primary_first_then_fallback_product.1 "USDT" "tether" envPrimaryOk 450 rfl rfl,
   c2_primary_first_then_fallback_product.2.1 "USDT" "tether" envFallbackOk
     (.keyError ("Rate not found for " ++ "USDT")) 1 449 rfl rfl rfl rfl rfl⟩

/-- C3: `get_all_rates` resolves USDT, BTC, ETH, TON independently in that
order; when BTC resolves to `None` and the others to nonzero rates, the
result is exactly the USDT, ETH and TON entries in insertion order — no
placeholder for BTC, and the batch is not aborted. -/
theorem c3_batch_omits_failed_asset (env : Env) (r1 r3 r4 : ℚ)
    (h1 : (get_crypto_rate "USDT" env).result = .ok (some r1)) (n1 : r1 ≠ 0)
    (h2 : (get_crypto_rate "BTC" env).result = .ok none)
    (h3 : (get_crypto_rate "ETH" env).result = .ok (some r3)) (n3 : r3 ≠ 0)
    (h4 : (get_crypto_rate "TON" env).result = .ok (some r4)) (n4 : r4 ≠ 0) :
    get_all_rates env = .ok [("USDT", r1), ("ETH", r3), ("TON", r4)] := by
  simp [get_all_rates, ratesLoop, h1, h2, h3, h4, n1, n3, n4]

/-- Witness for C3: USDT, ETH and TON answer from the primary while every
request about BTC fails, and the batch returns exactly the three entries. -/
theorem c3_batch_omits_failed_asset_witness :
    get_all_rates envBtcDown = .ok [("USDT", 450), ("ETH", 500000), ("TON", 900)] :=
  c3_batch_omits_failed_asset envBtcDown 450 500000 900 rfl (by norm_num) rfl rfl
    (by norm_num) rfl (by norm_num)

/-- C4: refuted on the code — a 200 response whose body is
`{"tether": {"kzt": null}}` passes both key checks, and then `float(None)`
raises `TypeError`, which the
`except (RequestException, KeyError, ValueError)` clause does not catch, so
the exception escapes `get_crypto_rate` instead of becoming a failure
outcome. -/
theorem c4_null_kzt_raises_uncaught :
    (get_crypto_rate "USDT" envNullKzt).result = .error .typeError ∧
    PyErr.caught .typeError = false :=
  ⟨rfl, rfl⟩

/-- C5: when the primary attempt and the fallback both raise caught
exceptions, `get_crypto_rate` returns `None` — never a number — and the
observable log reports the primary's reason and then the fallback's reason,
so the fallback's reason is the final one reported. -/
theorem c5_both_fail_fallback_reason (sym id : String) (env : Env) (e1 e2 : PyErr)
    (cs : List Call)
    (hid : crypto_ids.lookup sym = some id)
    (h1 : primaryParse env sym id = .error e1) (hc1 : PyErr.caught e1 = true)
    (h2 : fallbackRun env sym id = (.error e2, cs)) (hc2 : PyErr.caught e2 = true) :
    (get_crypto_rate sym env).result = .ok none ∧
    (get_crypto_rate sym env).logs = [.primaryError sym e1, .fallbackError sym e2] ∧
    ∀ q : ℚ, (get_crypto_rate sym env).result ≠ .ok (some q) := by
  refine ⟨?_, ?_, ?_⟩ <;>
    simp [get_crypto_rate, hid, get_crypto_rate_core, h1, hc1, h2, hc2]

/-- Witness for C5: with every request failing, USDT resolution returns
`None` and logs the primary then the fallback transport errors. -/
theorem c5_both_fail_fallback_reason_witness :
    (get_crypto_rate "USDT" envAllDown).result = .ok none ∧
    (get_crypto_rate "USDT" envAllDown).logs =
      [.primaryError "USDT" .requestException, .fallbackError "USDT" .requestException] ∧
    ∀ q : ℚ, (get_crypto_rate "USDT" envAllDown).result ≠ .ok (some q) :=
  c5_both_fail_fallback_reason "USDT" "tether" envAllDown .requestException
    .requestException [usdCall "tether"] rfl rfl rfl rfl rfl

/-- C6: after `begin(u)`, advancing with an input that parses to a positive
amount while the USDT rate resolves to a nonzero `r` yields the completed
conversion `amount * r` and removes the session, so `current(u)` is empty;
if the resolution fails (returns `None`) the failure reply is emitted and
the session is likewise removed — no re-prompt on a resolution failure. -/
theorem c6_completion_and_failure_end_session
    (u input : String) (a : ℚ) (s : ConvStore) (env1 env2 : Env) (r : ℚ)
    (hpf : pyFloatOfString input = some a) (ha : 0 < a)
    (h1 : (get_crypto_rate "USDT" env1).result = .ok (some r)) (hr : r ≠ 0)
    (h2 : (get_crypto_rate "USDT" env2).result = .ok none) :
    advanceConv u input env1 (beginConv u s) =
      .ok (.completed a r (a * r), endConv u (beginConv u s)) ∧
    advanceConv u input env2 (beginConv u s) =
      .ok (.rateFailure, endConv u (beginConv u s)) ∧
    currentStep u (endConv u (beginConv u s)) = none := by
  have hod : pyFloatOfString "Отмена" = none := by decide
  have hne : input ≠ "Отмена" := by
    intro hh
    rw [hh, hod] at hpf
    exact Option.noConfusion hpf
  have ha' : ¬ a ≤ 0 := not_le.mpr ha
  refine ⟨?_, ?_, ?_⟩
  · simp [advanceConv, convert_amount, hne, hpf, ha', h1, hr]
  · simp [advanceConv, convert_amount, hne, hpf, ha', h2]
  · simp [currentStep, endConv]

/-- Witness for C6: `begin` then "100" with the rate resolving to 450
completes and ends the session; with every provider down it fails and still
ends the session. -/
theorem c6_completion_and_failure_end_session_witness :
    advanceConv "u1" "100" envPrimaryOk (beginConv "u1" emptyStore) =
      .ok (.completed 100 450 (100 * 450), endConv "u1" (beginConv "u1" emptyStore)) ∧
    advanceConv "u1" "100" envAllDown (beginConv "u1" emptyStore) =
      .ok (.rateFailure, endConv "u1" (beginConv "u1" emptyStore)) ∧
    currentStep "u1" (endConv "u1" (beginConv "u1" emptyStore)) = none :=
  c6_completion_and_failure_end_session "u1" "100" 100 emptyStore envPrimaryOk envAllDown
    450 (by decide) (by norm_num) rfl (by norm_num) rfl

/-- C7: after `begin(u)`, an input that does not parse as a number ("abc"),
and any numeric input not greater than 0, yield the invalid-input reply
while the store is left exactly as it was, so `current(u)` still reports
the `AwaitingAmount` step — the session is never destroyed. -/
theorem c7_invalid_input_preserves_session (u : String) (s : ConvStore) (env : Env) :
    advanceConv u "abc" env (beginConv u s) = .ok (.invalidInput, beginConv u s) ∧
    (∀ (input : String) (a : ℚ), pyFloatOfString input = some a → a ≤ 0 →
      advanceConv u input env (beginConv u s) = .ok (.invalidInput, beginConv u s)) ∧
    currentStep u (beginConv u s) = some .awaitingAmount := by
  refine ⟨?_, ?_, ?_⟩
  · have habc : pyFloatOfString "abc" = none := by decide
    simp [advanceConv, convert_amount, habc]
  · intro input a hpf ha
    have hod : pyFloatOfString "Отмена" = none := by decide
    have hne : input ≠ "Отмена" := by
      intro hh
      rw [hh, hod] at hpf
      exact Option.noConfusion hpf
    simp [advanceConv, convert_amount, hne, hpf, ha]
  · simp [currentStep, beginConv]

/-- Witness for C7 at "abc" and at "-5". -/
theorem c7_invalid_input_preserves_session_witness :
    advanceConv "u1" "abc" envAllDown (beginConv "u1" emptyStore) =
      .ok (.invalidInput, beginConv "u1" emptyStore) ∧
    advanceConv "u1" "-5" envAllDown (beginConv "u1" emptyStore) =
      .ok (.invalidInput, beginConv "u1" emptyStore) ∧
    currentStep "u1" (beginConv "u1" emptyStore) = some .awaitingAmount :=
  ⟨(c7_invalid_input_preserves_session "u1" emptyStore envAllDown).1,
   (c7_invalid_input_preserves_session "u1" emptyStore envAllDown).2.1 "-5" (-5)
     (by decide) (by norm_num),
   (c7_invalid_input_preserves_session "u1" emptyStore envAllDown).2.2⟩

/-- C8: counterexample to the claim as stated — in a run where the primary
returns HTTP 500 and the fallback succeeds, the first (crypto→USD) fallback
leg is issued with `timeout=10` (line 56 of the source), not the claimed
5 seconds. -/
theorem c8_counterexample_usd_leg_timeout :
    (get_crypto_rate "USDT" envHalfDown).calls =
      [primaryCall "tether", usdCall "tether", kztCall] ∧
    usdCall "tether" = ⟨usdUrl "tether", 10⟩ ∧ (10 : ℕ) ≠ 5 :=
  ⟨rfl, rfl, by norm_num⟩

/-- C8 (amended): every HTTP call issued during one resolution carries its
fixed per-call timeout — 10 s for the primary call, 10 s for the crypto→USD
fallback leg and 5 s for the USD→KZT leg; the issued calls are always a
prefix of that three-call sequence. -/
theorem c8_fixed_per_call_timeouts (sym : String) (env : Env) :
    (get_crypto_rate sym env).calls = [] ∨
    ∃ id, crypto_ids.lookup sym = some id ∧
      ((get_crypto_rate sym env).calls = [primaryCall id] ∨
       (get_crypto_rate sym env).calls = [primaryCall id, usdCall id] ∨
       (get_crypto_rate sym env).calls = [primaryCall id, usdCall id, kztCall]) := by
  cases hl : crypto_ids.lookup sym with
  | none =>
    left
    simp [get_crypto_rate, hl]
  | some id =>
    right
    refine ⟨id, rfl, ?_⟩
    have h := get_crypto_rate_core_calls_shape sym id env
    simpa [get_crypto_rate, hl] using h

/-- C9: a resolved rate of exactly 0.0 is treated as a failure by every
consumer: `get_all_rates` omits the asset (every listed value is nonzero),
the conversion step replies with the failure message and ends the session,
and each single-asset handler renders the unavailable message. -/
theorem c9_zero_rate_is_failure :
    (∀ (env : Env) (rs : List (String × ℚ)), get_all_rates env = .ok rs →
      ∀ p ∈ rs, p.2 ≠ 0) ∧
    (∀ (u : String) (s : ConvStore) (env : Env),
      (get_crypto_rate "USDT" env).result = .ok (some 0) →
      advanceConv u "100" env (beginConv u s) =
        .ok (.rateFailure, endConv u (beginConv u s))) ∧
    (∀ (env : Env) (p : String × String),
      p ∈ [("USDT/KZT", "USDT"), ("BTC/KZT", "BTC"), ("ETH/KZT", "ETH"), ("TON/KZT", "TON")] →
      (get_crypto_rate p.2 env).result = .ok (some 0) →
      handle_message p.1 env = .reply (.rateUnavailable p.2)) := by
  refine ⟨?_, ?_, ?_⟩
  · intro env rs h
    exact ratesLoop_values_nonzero env ["USDT", "BTC", "ETH", "TON"] [] rs (by simp) h
  · intro u s env h0
    have hpf : pyFloatOfString "100" = some 100 := by decide
    have h100 : ¬ (100 : ℚ) ≤ 0 := by norm_num
    simp [advanceConv, convert_amount, hpf, h100, h0]
  · intro env p hp
    fin_cases hp <;> intro h0 <;>
      simp only [] at h0 <;>
      simp [handle_message, handle_message_body, singleRateBranch, Except.map, h0]

/-- Witness for C9: with USDT quoted at exactly 0.0 and ETH at 5, the batch
lists only the nonzero ETH entry, the conversion step fails and ends the
session, and the USDT handler renders the unavailable message. -/
theorem c9_zero_rate_is_failure_witness :
    (5 : ℚ) ≠ 0 ∧
    advanceConv "u1" "100" envZeroUsdt (beginConv "u1" emptyStore) =
      .ok (.rateFailure, endConv "u1" (beginConv "u1" emptyStore)) ∧
    handle_message "USDT/KZT" envZeroUsdt = .reply (.rateUnavailable "USDT") := by
  refine ⟨?_, ?_, ?_⟩
  · exact c9_zero_rate_is_failure.1 envZeroUsdt [("ETH", 5)] rfl ("ETH", 5) (by simp)
  · exact c9_zero_rate_is_failure.2.1 "u1" emptyStore envZeroUsdt rfl
  · exact c9_zero_rate_is_failure.2.2 envZeroUsdt ("USDT/KZT", "USDT") (by simp) rfl

/-- C10: for any symbol outside the supported set, `get_crypto_rate` returns
the failure value `None` immediately: no HTTP call is issued and nothing is
logged, so neither the primary nor the fallback chain is ever attempted. -/
theorem c10_unsupported_symbol_no_network (sym : String) (env : Env)
    (h : sym ∉ ["USDT", "BTC", "ETH", "TON"]) :
    (get_crypto_rate sym env).result = .ok none ∧
    (get_crypto_rate sym env).calls = [] ∧
    (get_crypto_rate sym env).logs = [] := by
  simp only [List.mem_cons, List.not_mem_nil, or_false, not_or] at h
  obtain ⟨h1, h2, h3, h4⟩ := h
  have e1 : (sym == "USDT") = false := beq_eq_false_iff_ne.mpr h1
  have e2 : (sym == "BTC") = false := beq_eq_false_iff_ne.mpr h2
  have e3 : (sym == "ETH") = false := beq_eq_false_iff_ne.mpr h3
  have e4 : (sym == "TON") = false := beq_eq_false_iff_ne.mpr h4
  have hl : crypto_ids.lookup sym = none := by
    simp [crypto_ids, List.lookup, e1, e2, e3, e4]
  refine ⟨?_, ?_, ?_⟩ <;> simp [get_crypto_rate, hl]

/-- Witness for C10 at the unsupported symbol "DOGE". -/
theorem c10_unsupported_symbol_no_network_witness :
    (get_crypto_rate "DOGE" envAllDown).result = .ok none ∧
    (get_crypto_rate "DOGE" envAllDown).calls = [] ∧
    (get_crypto_rate "DOGE" envAllDown).logs = [] :=
  c10_unsupported_symbol_no_network "DOGE" envAllDown (by decide)
